import Mathlib

/-!
Shallow embedding of `src/packages/turf-boolean-within/index.js`: the
`booleanWithin` predicate over GeoJSON-style geometries, together with the
collaborating primitives (`inside`, `isPointOnLine`, `calcBbox`) that the
source imports from sibling packages and that are therefore modelled from
the specification's contracts.

Coordinates are rational pairs; JS numbers are modelled by `ℚ`.
-/

/-- A coordinate pair `[x, y]`. -/
abbrev Coord := ℚ × ℚ

/-- GeoJSON-style geometry payloads, one constructor per run-time type tag
that the dispatcher can encounter. -/
inductive Geometry where
  | point (coordinates : Coord)
  | multiPoint (coordinates : List Coord)
  | lineString (coordinates : List Coord)
  | polygon (coordinates : List (List Coord))
  | multiLineString (coordinates : List (List Coord))
  | multiPolygon (coordinates : List (List (List Coord)))
deriving DecidableEq

/-- The run-time type tag of a geometry, as returned by `getType`. -/
def getType : Geometry → String
  | .point _ => "Point"
  | .multiPoint _ => "MultiPoint"
  | .lineString _ => "LineString"
  | .polygon _ => "Polygon"
  | .multiLineString _ => "MultiLineString"
  | .multiPolygon _ => "MultiPolygon"

/-- The consecutive-vertex segments of a coordinate sequence. -/
def segments : List Coord → List (Coord × Coord)
  | a :: b :: rest => (a, b) :: segments (b :: rest)
  | _ => []

/-- `p` lies on the closed segment from `a` to `b`: collinear and within the
segment's axis-aligned bounds. -/
def onSegment (a b p : Coord) : Bool :=
  decide ((b.1 - a.1) * (p.2 - a.2) - (b.2 - a.2) * (p.1 - a.1) = 0 ∧
    min a.1 b.1 ≤ p.1 ∧ p.1 ≤ max a.1 b.1 ∧
    min a.2 b.2 ≤ p.2 ∧ p.2 ≤ max a.2 b.2)

/-- Modelled from the spec: `pointOnSegmentOrLine(point, lineString,
excludeBoundary)` (§6), the capability the source imports as
`isPointOnLine` from turf-boolean-point-on-line, which is not under `src/`.
Boundary-inclusive point-on-line test over the consecutive segments; when
`excludeBoundary` is true it tests strict-interior membership only, the
interior of a line being the points strictly between its endpoints
(glossary: excluding the first and last coordinate). -/
def isPointOnLine (pt : Coord) (lineString : List Coord)
    (excludeBoundary : Bool) : Bool :=
  (segments lineString).any (fun s => onSegment s.1 s.2 pt) &&
    (!excludeBoundary ||
      (!(decide (lineString.head? = some pt)) &&
       !(decide (lineString.getLast? = some pt))))

/-- `p` lies on the boundary of the ring `ring` (on one of its edges). -/
def pointOnRing (p : Coord) (ring : List Coord) : Bool :=
  (segments ring).any (fun e => onSegment e.1 e.2 p)

/-- One step of even-odd ray casting: does the horizontal ray from `p`
towards `+x` cross the edge from `a` to `b`? -/
def rayCrossesEdge (p a b : Coord) : Bool :=
  decide (((a.2 > p.2) ≠ (b.2 > p.2)) ∧
    p.1 < (b.1 - a.1) * (p.2 - a.2) / (b.2 - a.2) + a.1)

/-- Parity of ray crossings of `p` against the edges of one ring. -/
def ringCrossings (p : Coord) (ring : List Coord) : Bool :=
  (segments ring).foldl
    (fun acc e => if rayCrossesEdge p e.1 e.2 then !acc else acc) false

/-- Modelled from the spec: `pointInPolygon(point, polygon, excludeBoundary)`
(§6), the capability the source imports as `inside` from turf-inside, which
is not under `src/`. Boundary-inclusive by default; when `excludeBoundary`
is true, tests strict-interior membership only. Strict interior is decided
by even-odd ray casting over the polygon's rings; points on a ring edge are
boundary points. -/
def inside (pt : Coord) (polygon : List (List Coord))
    (excludeBoundary : Bool) : Bool :=
  if polygon.any (fun ring => pointOnRing pt ring) then !excludeBoundary
  else polygon.foldl (fun acc ring => acc != ringCrossings pt ring) false

/-- An axis-aligned bounding box `[minX, minY, maxX, maxY]`. -/
structure BBox where
  minX : ℚ
  minY : ℚ
  maxX : ℚ
  maxY : ℚ
deriving DecidableEq

/-- Modelled from the spec: `boundingBox(geometry) -> BBox` (§6), the
capability the source imports as `calcBbox` from turf-bbox, which is not
under `src/`: the componentwise min/max over the geometry's coordinates. -/
def calcBbox (coords : List Coord) : BBox :=
  match coords with
  | [] => ⟨0, 0, 0, 0⟩
  | c :: rest =>
    rest.foldl
      (fun acc q =>
        ⟨min acc.minX q.1, min acc.minY q.2, max acc.maxX q.1, max acc.maxY q.2⟩)
      ⟨c.1, c.2, c.1, c.2⟩

/-- `compareCoords(pair1, pair2)`: exact componentwise coordinate equality. -/
def compareCoords (pair1 pair2 : Coord) : Bool :=
  decide (pair1.1 = pair2.1) && decide (pair1.2 = pair2.2)

/-- `getMidpoint(pair1, pair2)`: the componentwise arithmetic mean. -/
def getMidpoint (pair1 pair2 : Coord) : Coord :=
  ((pair1.1 + pair2.1) / 2, (pair1.2 + pair2.2) / 2)

/-- `doBBoxOverlap(bbox1, bbox2)`: false as soon as `bbox1`'s min exceeds
`bbox2`'s min or `bbox1`'s max is below `bbox2`'s max on either axis. -/
def doBBoxOverlap (bbox1 bbox2 : BBox) : Bool :=
  if bbox1.minX > bbox2.minX then false
  else if bbox1.maxX < bbox2.maxX then false
  else if bbox1.minY > bbox2.minY then false
  else if bbox1.maxY < bbox2.maxY then false
  else true

/-- `isPointInMultiPoint`: scan the MultiPoint for a coordinate equal to the
point's, short-circuiting on the first match. -/
def isPointInMultiPoint (point : Coord) (multiPoint : List Coord) : Bool :=
  multiPoint.any (fun c => compareCoords c point)

/-- `isMultiPointInMultiPoint`: every coordinate of the first MultiPoint has
a match among the coordinates of the second. -/
def isMultiPointInMultiPoint (multiPoint1 multiPoint2 : List Coord) : Bool :=
  multiPoint1.all (fun c1 => multiPoint2.any (fun c2 => compareCoords c1 c2))

/-- Loop of `isMultiPointOnLine`, carrying the `foundInsidePoint` flag:
return false on the first coordinate not on the line at all, otherwise
record whether a strictly-interior coordinate has been seen. -/
def isMultiPointOnLineGo (lineString : List Coord) :
    List Coord → Bool → Bool
  | [], foundInsidePoint => foundInsidePoint
  | c :: rest, foundInsidePoint =>
    if !(isPointOnLine c lineString false) then false
    else
      isMultiPointOnLineGo lineString rest
        (foundInsidePoint || isPointOnLine c lineString true)

/-- `isMultiPointOnLine`: the loop started with `foundInsidePoint = false`. -/
def isMultiPointOnLine (multiPoint lineString : List Coord) : Bool :=
  isMultiPointOnLineGo lineString multiPoint false

/-- Loop of `isMultiPointInPoly`, mirroring the source faithfully: each
iteration re-reads `multiPoint.coordinates[1]` (passed here as `c1`), never
the loop index. `c1 = none` models the out-of-bounds read `coordinates[1]`
being `undefined`, on which the JS `inside` throws (result `none`). The JS
`isInside` variable starts out `undefined`, modelled as `Option Bool`; the
`oneInside` flag is never written, so the strict re-test runs every
iteration. The loop state is `(output, oneInside, isInside)`. -/
def isMultiPointInPolyGo (c1 : Option Coord) (polygon : List (List Coord)) :
    List Coord → Bool → Bool → Option Bool → Option (Bool × Bool × Option Bool)
  | [], output, oneInside, isInside => some (output, oneInside, isInside)
  | _ :: rest, output, oneInside, _ =>
    match c1 with
    | none => none
    | some c =>
      let isInside := inside c polygon false
      if !isInside then some (false, oneInside, some isInside)
      else
        let isInside := if !oneInside then inside c polygon true else isInside
        isMultiPointInPolyGo c1 polygon rest output oneInside (some isInside)

/-- `isMultiPointInPoly`: the looped state machine above, returning
`output && isInside`; a JS `undefined` result (empty MultiPoint) is falsy,
hence `getD false`, and `none` models the thrown TypeError. -/
def isMultiPointInPoly (multiPoint : List Coord)
    (polygon : List (List Coord)) : Option Bool :=
  (isMultiPointInPolyGo multiPoint[1]? polygon multiPoint true false none).map
    (fun s => s.1 && s.2.2.getD false)

/-- `isLineOnLine`: every vertex of the first LineString lies on the second
(boundary-inclusive). -/
def isLineOnLine (lineString1 lineString2 : List Coord) : Bool :=
  lineString1.all (fun c => isPointOnLine c lineString2 false)

/-- Loop of `isLineInPoly`: over each vertex except the last, return false
if it is not inside-or-on-boundary; otherwise look for a strict-interior
witness at the vertex and, failing that, at the midpoint of the segment to
the next vertex. -/
def isLineInPolyGo (polygon : List (List Coord)) :
    List Coord → Bool → Bool
  | c :: next :: rest, foundInsidePoint =>
    if !(inside c polygon false) then false
    else
      let foundInsidePoint := foundInsidePoint || inside c polygon true
      let foundInsidePoint :=
        foundInsidePoint || inside (getMidpoint c next) polygon true
      isLineInPolyGo polygon (next :: rest) foundInsidePoint
  | _, foundInsidePoint => foundInsidePoint

/-- `isLineInPoly`: bbox prune (polygon bbox must contain line bbox), then
the vertex/midpoint loop started with `foundInsidePoint = false`. -/
def isLineInPoly (linestring : List Coord)
    (polygon : List (List Coord)) : Bool :=
  let polyBbox := calcBbox polygon.flatten
  let lineBbox := calcBbox linestring
  if !(doBBoxOverlap polyBbox lineBbox) then false
  else isLineInPolyGo polygon linestring false

/-- `isPolyInPoly`: bbox prune (polygon2's bbox must contain polygon1's),
then every vertex of polygon1's outer ring must be inside-or-on-boundary of
polygon2. Only outer rings of polygon1 are walked, as in the source's
`feature1.coordinates[0]`. -/
def isPolyInPoly (feature1 feature2 : List (List Coord)) : Bool :=
  let poly1Bbox := calcBbox feature1.flatten
  let poly2Bbox := calcBbox feature2.flatten
  if !(doBBoxOverlap poly2Bbox poly1Bbox) then false
  else (feature1.headD []).all (fun c => inside c feature2 false)

/-- The dispatcher `booleanWithin(feature1, feature2)`: switch over the pair
of type tags; unsupported combinations throw, modelled as `Except.error`
with the exact message strings of the source. The `none` result of
`isMultiPointInPoly` (a thrown TypeError inside the collaborator) is
surfaced as an error as well. -/
def booleanWithin (feature1 feature2 : Geometry) : Except String Bool :=
  match feature1 with
  | .point geom1 =>
    match feature2 with
    | .multiPoint geom2 => .ok (isPointInMultiPoint geom1 geom2)
    | .lineString geom2 => .ok (isPointOnLine geom1 geom2 true)
    | .polygon geom2 => .ok (inside geom1 geom2 true)
    | _ => .error ("feature2 " ++ getType feature2 ++ " geometry not supported")
  | .multiPoint geom1 =>
    match feature2 with
    | .multiPoint geom2 => .ok (isMultiPointInMultiPoint geom1 geom2)
    | .lineString geom2 => .ok (isMultiPointOnLine geom1 geom2)
    | .polygon geom2 =>
      match isMultiPointInPoly geom1 geom2 with
      | some b => .ok b
      | none => .error "TypeError"
    | _ => .error ("feature2 " ++ getType feature2 ++ " geometry not supported")
  | .lineString geom1 =>
    match feature2 with
    | .lineString geom2 => .ok (isLineOnLine geom1 geom2)
    | .polygon geom2 => .ok (isLineInPoly geom1 geom2)
    | _ => .error ("feature2 " ++ getType feature2 ++ " geometry not supported")
  | .polygon geom1 =>
    match feature2 with
    | .polygon geom2 => .ok (isPolyInPoly geom1 geom2)
    | _ => .error ("feature2 " ++ getType feature2 ++ " geometry not supported")
  | _ => .error ("feature1 " ++ getType feature1 ++ " geometry not supported")

/-- The ordered type pairs the dispatcher supports (its switch table). -/
def supportedPair : Geometry → Geometry → Bool
  | .point _, .multiPoint _ => true
  | .point _, .lineString _ => true
  | .point _, .polygon _ => true
  | .multiPoint _, .multiPoint _ => true
  | .multiPoint _, .lineString _ => true
  | .multiPoint _, .polygon _ => true
  | .lineString _, .lineString _ => true
  | .lineString _, .polygon _ => true
  | .polygon _, .polygon _ => true
  | _, _ => false

/-- Whether the first argument's type has any supported pairing (the outer
switch has a case for it); when it does, a failing pair blames `feature2`. -/
def supportedFirst : Geometry → Bool
  | .point _ => true
  | .multiPoint _ => true
  | .lineString _ => true
  | .polygon _ => true
  | _ => false

/-- Whether a dispatcher result is a normal boolean return (as opposed to a
thrown error). -/
def isOkResult : Except String Bool → Bool
  | .ok _ => true
  | .error _ => false

/-- The outer square ring `[[0,0],[0,10],[10,10],[10,0],[0,0]]` used by the
spec's concrete scenarios. -/
def exampleSquare : List (List Coord) := [[(0,0),(0,10),(10,10),(10,0),(0,0)]]

lemma onSegment_left (a b : Coord) : onSegment a b a = true := by
  simp only [onSegment, decide_eq_true_eq]
  exact ⟨by ring, min_le_left _ _, le_max_left _ _, min_le_left _ _, le_max_left _ _⟩

lemma onSegment_right (a b : Coord) : onSegment a b b = true := by
  simp only [onSegment, decide_eq_true_eq]
  exact ⟨by ring, min_le_right _ _, le_max_right _ _, min_le_right _ _, le_max_right _ _⟩

/-- Every vertex of a coordinate sequence with at least two entries lies on
one of its consecutive segments. -/
lemma exists_segment_of_mem :
    ∀ (l : List Coord) (c : Coord), 2 ≤ l.length → c ∈ l →
      ∃ s ∈ segments l, onSegment s.1 s.2 c = true
  | [], _, h, _ => by simp at h
  | [_], _, h, _ => by simp at h
  | a :: b :: rest, c, _, hc => by
    rcases List.mem_cons.mp hc with h1 | h2
    · exact ⟨(a, b), List.mem_cons_self _ _, h1 ▸ onSegment_left a b⟩
    · cases rest with
      | nil =>
        have hcb : c = b := by simpa using h2
        exact ⟨(a, b), List.mem_cons_self _ _, hcb ▸ onSegment_right a b⟩
      | cons d rest2 =>
        obtain ⟨s, hs, hons⟩ :=
          exists_segment_of_mem (b :: d :: rest2) c (by simp) h2
        exact ⟨s, List.mem_cons_of_mem _ hs, hons⟩

/-- Boundary-inclusive point-on-line holds at every vertex of the line. -/
lemma isPointOnLine_of_mem (l : List Coord) (c : Coord)
    (hlen : 2 ≤ l.length) (hc : c ∈ l) : isPointOnLine c l false = true := by
  obtain ⟨s, hs, h⟩ := exists_segment_of_mem l c hlen hc
  simp only [isPointOnLine, Bool.not_false, Bool.true_or, Bool.and_true]
  exact List.any_eq_true.mpr ⟨s, hs, h⟩

/-- C5: for every Point `P` and MultiPoint `M`, `within(P, M)` is true iff
`P`'s coordinate is exactly (componentwise, no epsilon) equal to at least
one coordinate of `M`. -/
theorem isPointInMultiPoint_exact_match (p : Coord) (m : List Coord) :
    booleanWithin (.point p) (.multiPoint m) = .ok (isPointInMultiPoint p m) ∧
    (isPointInMultiPoint p m = true ↔ ∃ c ∈ m, c.1 = p.1 ∧ c.2 = p.2) := by
  refine ⟨rfl, ?_⟩
  simp [isPointInMultiPoint, compareCoords, List.any_eq_true]

/-- C5 witness: `(1,2)` is within the MultiPoint `[(0,0),(1,2)]`. -/
theorem isPointInMultiPoint_exact_match_witness :
    booleanWithin (.point ((1 : ℚ), (2 : ℚ)))
      (.multiPoint [(0, 0), (1, 2)]) = .ok true := by
  rw [(isPointInMultiPoint_exact_match (1, 2) [(0, 0), (1, 2)]).1]
  rw [(isPointInMultiPoint_exact_match (1, 2) [(0, 0), (1, 2)]).2.mpr
    ⟨(1, 2), by simp, rfl, rfl⟩]

/-- C6: `within` on a pair of LineStrings holds iff every vertex of the
first lies (boundary-inclusively) on the second; hence every LineString
(with the data model's two or more coordinates) is within itself. -/
theorem isLineOnLine_vertex_membership_and_refl (l1 l2 l : List Coord) :
    (isLineOnLine l1 l2 = true ↔ ∀ c ∈ l1, isPointOnLine c l2 false = true) ∧
    (2 ≤ l.length →
      booleanWithin (.lineString l) (.lineString l) = .ok true) := by
  constructor
  · simp [isLineOnLine, List.all_eq_true]
  · intro hlen
    have hall : isLineOnLine l l = true :=
      List.all_eq_true.mpr fun c hc => isPointOnLine_of_mem l c hlen hc
    show Except.ok (isLineOnLine l l) = Except.ok true
    rw [hall]

/-- C6 witness: a concrete three-vertex LineString is within itself. -/
theorem isLineOnLine_vertex_membership_and_refl_witness :
    2 ≤ ([((0:ℚ),(0:ℚ)), (1,1), (2,2)] : List Coord).length ∧
    booleanWithin (.lineString [(0,0), (1,1), (2,2)])
      (.lineString [(0,0), (1,1), (2,2)]) = .ok true :=
  ⟨by simp, (isLineOnLine_vertex_membership_and_refl [] []
      [(0,0), (1,1), (2,2)]).2 (by simp)⟩

/-- C9: the empty MultiPoint is (vacuously) within every MultiPoint, but is
within no LineString, because the interior-witness flag starts false and is
never set. -/
theorem empty_multiPoint_asymmetry (m line : List Coord) :
    booleanWithin (.multiPoint []) (.multiPoint m) = .ok true ∧
    booleanWithin (.multiPoint []) (.lineString line) = .ok false :=
  ⟨rfl, rfl⟩

/-- C10: the dispatcher routes `within(Point, LineString)` to the
boundary-excluding point-on-line test, so a point sitting at the line's
first or last coordinate is not within the line. -/
theorem point_in_lineString_excludes_boundary (p : Coord) (line : List Coord) :
    booleanWithin (.point p) (.lineString line) = .ok (isPointOnLine p line true) ∧
    (line.head? = some p ∨ line.getLast? = some p →
      booleanWithin (.point p) (.lineString line) = .ok false) := by
  refine ⟨rfl, fun h => ?_⟩
  have hfalse : isPointOnLine p line true = false := by
    rcases h with h | h <;> simp [isPointOnLine, h]
  show Except.ok (isPointOnLine p line true) = Except.ok false
  rw [hfalse]

/-- C10 witness: `(1,1)` lies on `[(1,1),(1,3)]` only at its first
coordinate and is not within it. -/
theorem point_in_lineString_excludes_boundary_witness :
    ([((1:ℚ),(1:ℚ)), (1,3)] : List Coord).head? = some ((1:ℚ),(1:ℚ)) ∧
    booleanWithin (.point (1,1)) (.lineString [(1,1), (1,3)]) = .ok false :=
  ⟨rfl, (point_in_lineString_excludes_boundary (1,1) [(1,1), (1,3)]).2 (Or.inl rfl)⟩

/-- Input/output characterization of the `isMultiPointOnLine` loop. -/
lemma isMultiPointOnLineGo_spec (line : List Coord) :
    ∀ (coords : List Coord) (found : Bool),
      isMultiPointOnLineGo line coords found = true ↔
        ((∀ c ∈ coords, isPointOnLine c line false = true) ∧
         (found = true ∨ ∃ c ∈ coords, isPointOnLine c line true = true)) := by
  intro coords
  induction coords with
  | nil => intro found; simp [isMultiPointOnLineGo]
  | cons c rest ih =>
    intro found
    cases hb : isPointOnLine c line false with
    | false =>
      simp only [isMultiPointOnLineGo, hb, Bool.not_false, if_true]
      constructor
      · intro hfalse; cases hfalse
      · rintro ⟨hall, _⟩
        exact absurd (hall c (List.mem_cons_self _ _)) (by simp [hb])
    | true =>
      simp only [isMultiPointOnLineGo, hb, Bool.not_true, Bool.false_eq_true,
        if_false, ih, Bool.or_eq_true, List.mem_cons]
      constructor
      · rintro ⟨hall, hw⟩
        refine ⟨fun x hx => ?_, ?_⟩
        · rcases hx with hx | hx
          · exact hx ▸ hb
          · exact hall x hx
        · rcases hw with (hf | hs) | ⟨x, hx, hxs⟩
          · exact Or.inl hf
          · exact Or.inr ⟨c, Or.inl rfl, hs⟩
          · exact Or.inr ⟨x, Or.inr hx, hxs⟩
      · rintro ⟨hall, hw⟩
        refine ⟨fun x hx => hall x (Or.inr hx), ?_⟩
        rcases hw with hf | ⟨x, hx | hx, hxs⟩
        · exact Or.inl (Or.inl hf)
        · exact Or.inl (Or.inr (hx ▸ hxs))
        · exact Or.inr ⟨x, hx, hxs⟩

/-- C7: `within(MultiPoint, LineString)` is true iff every point of the
MultiPoint is on the line (boundary-inclusive) and at least one is strictly
between the endpoints; any point not on the line at all forces false. -/
theorem isMultiPointOnLine_spec (m line : List Coord) :
    booleanWithin (.multiPoint m) (.lineString line) = .ok (isMultiPointOnLine m line) ∧
    (isMultiPointOnLine m line = true ↔
      ((∀ c ∈ m, isPointOnLine c line false = true) ∧
       ∃ c ∈ m, isPointOnLine c line true = true)) ∧
    ((∃ c ∈ m, isPointOnLine c line false = false) →
      isMultiPointOnLine m line = false) := by
  have hiff : isMultiPointOnLine m line = true ↔
      ((∀ c ∈ m, isPointOnLine c line false = true) ∧
       ∃ c ∈ m, isPointOnLine c line true = true) := by
    rw [isMultiPointOnLine, isMultiPointOnLineGo_spec line m false]
    simp
  refine ⟨rfl, hiff, ?_⟩
  rintro ⟨c, hc, hnot⟩
  cases hres : isMultiPointOnLine m line with
  | false => rfl
  | true => exact absurd ((hiff.mp hres).1 c hc) (by simp [hnot])

/-- C7 witness: `(5,5)` is not on the line `[(1,1),(1,3)]`, so the
MultiPoint `[(1,2),(5,5)]` is not within it. -/
theorem isMultiPointOnLine_spec_witness :
    isPointOnLine ((5:ℚ),(5:ℚ)) [((1:ℚ),(1:ℚ)), (1,3)] false = false ∧
    isMultiPointOnLine [((1:ℚ),(2:ℚ)), (5,5)] [((1:ℚ),(1:ℚ)), (1,3)] = false :=
  ⟨by with_unfolding_all decide,
   (isMultiPointOnLine_spec [(1,2), (5,5)] [(1,1), (1,3)]).2.2
     ⟨(5,5), by simp, by with_unfolding_all decide⟩⟩

/-- C8: `doBBoxOverlap(bbox1, bbox2)` is false iff `bbox1`'s min exceeds
`bbox2`'s min or `bbox1`'s max is below `bbox2`'s max on either axis
(equivalently, true iff `bbox2` fits inside `bbox1`), and both
`isLineInPoly` and `isPolyInPoly` prune on it with the containing
geometry's bbox first. -/
theorem doBBoxOverlap_containment_spec (bbox1 bbox2 : BBox) (line : List Coord)
    (poly1 poly2 : List (List Coord)) :
    (doBBoxOverlap bbox1 bbox2 = false ↔
      (bbox2.minX < bbox1.minX ∨ bbox1.maxX < bbox2.maxX ∨
       bbox2.minY < bbox1.minY ∨ bbox1.maxY < bbox2.maxY)) ∧
    (doBBoxOverlap bbox1 bbox2 = true ↔
      (bbox1.minX ≤ bbox2.minX ∧ bbox2.maxX ≤ bbox1.maxX ∧
       bbox1.minY ≤ bbox2.minY ∧ bbox2.maxY ≤ bbox1.maxY)) ∧
    (doBBoxOverlap (calcBbox poly1.flatten) (calcBbox line) = false →
      isLineInPoly line poly1 = false) ∧
    (doBBoxOverlap (calcBbox poly2.flatten) (calcBbox poly1.flatten) = false →
      isPolyInPoly poly1 poly2 = false) := by
  have htrue : doBBoxOverlap bbox1 bbox2 = true ↔
      (bbox1.minX ≤ bbox2.minX ∧ bbox2.maxX ≤ bbox1.maxX ∧
       bbox1.minY ≤ bbox2.minY ∧ bbox2.maxY ≤ bbox1.maxY) := by
    rw [doBBoxOverlap]
    split_ifs with h1 h2 h3 h4
    · exact iff_of_false (by simp) fun hh => absurd hh.1 (not_le.mpr h1)
    · exact iff_of_false (by simp) fun hh => absurd hh.2.1 (not_le.mpr h2)
    · exact iff_of_false (by simp) fun hh => absurd hh.2.2.1 (not_le.mpr h3)
    · exact iff_of_false (by simp) fun hh => absurd hh.2.2.2 (not_le.mpr h4)
    · exact iff_of_true rfl ⟨not_lt.mp h1, not_lt.mp h2, not_lt.mp h3, not_lt.mp h4⟩
  refine ⟨?_, htrue, fun h => ?_, fun h => ?_⟩
  · rw [show (doBBoxOverlap bbox1 bbox2 = false) ↔ ¬(doBBoxOverlap bbox1 bbox2 = true)
      from by simp, htrue]
    simp only [not_and_or, not_le]
  · simp [isLineInPoly, h]
  · simp [isPolyInPoly, h]

/-- C8 witness: on concrete boxes the prune fires: the 10×10 square's bbox
does not contain the bbox of `[(20,20),(30,30)]`, so `isLineInPoly` is
false. -/
theorem doBBoxOverlap_containment_spec_witness :
    doBBoxOverlap (calcBbox exampleSquare.flatten)
      (calcBbox ([((20:ℚ),(20:ℚ)), (30,30)] : List Coord)) = false ∧
    isLineInPoly [((20:ℚ),(20:ℚ)), (30,30)] exampleSquare = false :=
  ⟨by with_unfolding_all decide,
   (doBBoxOverlap_containment_spec ⟨0,0,0,0⟩ ⟨0,0,0,0⟩ [(20,20), (30,30)]
      exampleSquare []).2.2.1 (by with_unfolding_all decide)⟩

/-- C4: every ordered pair of geometry types outside the dispatch table is
rejected with an error naming the offending argument (`feature1` when the
first type has no case at all, `feature2` otherwise) and that argument's
type name; no boolean is returned. -/
theorem booleanWithin_unsupported_pair_error (g1 g2 : Geometry)
    (h : supportedPair g1 g2 = false) :
    isOkResult (booleanWithin g1 g2) = false ∧
    booleanWithin g1 g2 = .error
      (cond (supportedFirst g1) ("feature2 " ++ getType g2)
          ("feature1 " ++ getType g1) ++ " geometry not supported") := by
  cases g1 <;> cases g2 <;> simp only [supportedPair] at h <;>
    first
      | exact Bool.noConfusion h
      | exact ⟨rfl, rfl⟩

/-- C4 witness: `within(MultiPolygon, Polygon)` throws the
unsupported-geometry error naming `feature1` and `MultiPolygon`. -/
theorem booleanWithin_unsupported_pair_error_witness :
    supportedPair (.multiPolygon []) (.polygon exampleSquare) = false ∧
    (isOkResult (booleanWithin (.multiPolygon []) (.polygon exampleSquare)) = false ∧
     booleanWithin (.multiPolygon []) (.polygon exampleSquare) = .error
       (cond (supportedFirst (.multiPolygon []))
           ("feature2 " ++ getType (.polygon exampleSquare))
           ("feature1 " ++ getType (.multiPolygon [])) ++ " geometry not supported")) :=
  ⟨rfl, booleanWithin_unsupported_pair_error _ _ rfl⟩

/-- Soundness of the `isLineInPoly` loop: a true result means every vertex
except the last was inside-or-on-boundary, and either the incoming flag was
already set or some tested vertex or segment midpoint is strictly
interior. -/
lemma isLineInPolyGo_spec (poly : List (List Coord)) :
    ∀ (coords : List Coord) (found : Bool),
      isLineInPolyGo poly coords found = true →
        (∀ c ∈ coords.dropLast, inside c poly false = true) ∧
        (found = true ∨ ∃ s ∈ segments coords,
          inside s.1 poly true = true ∨ inside (getMidpoint s.1 s.2) poly true = true)
  | [], _, h => ⟨by simp, Or.inl h⟩
  | [_], _, h => ⟨by simp, Or.inl h⟩
  | c :: next :: rest, found, h => by
    cases hin : inside c poly false with
    | false =>
      simp only [isLineInPolyGo, hin, Bool.not_false, if_true] at h
      exact Bool.noConfusion h
    | true =>
      simp only [isLineInPolyGo, hin, Bool.not_true, Bool.false_eq_true,
        if_false] at h
      obtain ⟨hall, hw⟩ := isLineInPolyGo_spec poly (next :: rest)
        ((found || inside c poly true) || inside (getMidpoint c next) poly true) h
      constructor
      · intro x hx
        rcases List.mem_cons.mp hx with hx | hx
        · exact hx ▸ hin
        · exact hall x hx
      · rcases hw with hor | ⟨s, hs, hsw⟩
        · have hor2 : (found = true ∨ inside c poly true = true) ∨
              inside (getMidpoint c next) poly true = true := by simpa using hor
          rcases hor2 with (hf | hv) | hm
          · exact Or.inl hf
          · exact Or.inr ⟨(c, next), List.mem_cons_self _ _, Or.inl hv⟩
          · exact Or.inr ⟨(c, next), List.mem_cons_self _ _, Or.inr hm⟩
        · exact Or.inr ⟨s, List.mem_cons_of_mem _ hs, hsw⟩

/-- C2: `within(LineString, Polygon)` is true only if every vertex but the
last is inside-or-on-boundary and some vertex or segment midpoint is
strictly interior; a LineString lying entirely on the square's boundary
edge is not within it. -/
theorem isLineInPoly_requires_interior_witness (line : List Coord)
    (poly : List (List Coord)) :
    (booleanWithin (.lineString line) (.polygon poly) = .ok true →
      (∀ c ∈ line.dropLast, inside c poly false = true) ∧
      ∃ s ∈ segments line,
        inside s.1 poly true = true ∨ inside (getMidpoint s.1 s.2) poly true = true) ∧
    booleanWithin (.lineString [(0,2), (0,8)]) (.polygon exampleSquare) = .ok false := by
  constructor
  · intro h
    have hl : isLineInPoly line poly = true := Except.ok.inj h
    simp only [isLineInPoly] at hl
    cases hbb : doBBoxOverlap (calcBbox poly.flatten) (calcBbox line) with
    | false =>
      simp only [hbb, Bool.not_false, if_true] at hl
      exact Bool.noConfusion hl
    | true =>
      simp only [hbb, Bool.not_true, Bool.false_eq_true, if_false] at hl
      obtain ⟨h1, h2⟩ := isLineInPolyGo_spec poly line false hl
      rcases h2 with h2 | h2
      · exact Bool.noConfusion h2
      · exact ⟨h1, h2⟩
  · with_unfolding_all rfl

/-- C2 witness: the diagonal `[(2,2),(8,8)]` is within the square, and the
theorem then certifies its non-final vertices inside-or-on-boundary. -/
theorem isLineInPoly_requires_interior_witness_witness :
    booleanWithin (.lineString [((2:ℚ),(2:ℚ)), (8,8)]) (.polygon exampleSquare) = .ok true ∧
    inside ((2:ℚ),(2:ℚ)) exampleSquare false = true :=
  ⟨by with_unfolding_all rfl,
   ((isLineInPoly_requires_interior_witness [(2,2), (8,8)] exampleSquare).1
      (by with_unfolding_all rfl)).1 (2,2) (by with_unfolding_all decide)⟩

/-- C3: `within(Polygon, Polygon)` is false when polygon2's bbox does not
contain polygon1's; otherwise it is true exactly when every vertex of
polygon1's outer ring is inside-or-on-boundary of polygon2 — so the square
is within an identical square. -/
theorem isPolyInPoly_bbox_prune_and_vertex_membership (poly1 poly2 : List (List Coord)) :
    (doBBoxOverlap (calcBbox poly2.flatten) (calcBbox poly1.flatten) = false →
      booleanWithin (.polygon poly1) (.polygon poly2) = .ok false) ∧
    (doBBoxOverlap (calcBbox poly2.flatten) (calcBbox poly1.flatten) = true →
      (booleanWithin (.polygon poly1) (.polygon poly2) = .ok true ↔
        ∀ c ∈ poly1.headD [], inside c poly2 false = true)) ∧
    booleanWithin (.polygon exampleSquare) (.polygon exampleSquare) = .ok true := by
  refine ⟨fun h => ?_, fun h => ?_, by with_unfolding_all rfl⟩
  · show Except.ok (isPolyInPoly poly1 poly2) = Except.ok false
    rw [show isPolyInPoly poly1 poly2 = false from by simp [isPolyInPoly, h]]
  · constructor
    · intro hh
      have hp : isPolyInPoly poly1 poly2 = true := Except.ok.inj hh
      simp only [isPolyInPoly, h, Bool.not_true, Bool.false_eq_true, if_false] at hp
      exact fun c hc => List.all_eq_true.mp hp c hc
    · intro hall
      show Except.ok (isPolyInPoly poly1 poly2) = Except.ok true
      have hp : isPolyInPoly poly1 poly2 = true := by
        simp only [isPolyInPoly, h, Bool.not_true, Bool.false_eq_true, if_false]
        exact List.all_eq_true.mpr hall
      rw [hp]

/-- C3 witness: identical squares — the bbox test passes and every outer
vertex lies on the boundary, so the result is true. -/
theorem isPolyInPoly_bbox_prune_and_vertex_membership_witness :
    doBBoxOverlap (calcBbox exampleSquare.flatten) (calcBbox exampleSquare.flatten) = true ∧
    booleanWithin (.polygon exampleSquare) (.polygon exampleSquare) = .ok true :=
  ⟨by with_unfolding_all decide,
   ((isPolyInPoly_bbox_prune_and_vertex_membership exampleSquare exampleSquare).2.1
      (by with_unfolding_all decide)).mpr (by with_unfolding_all decide)⟩

/-- C1 (code bug): the source's `isMultiPointInPoly` tests
`coordinates[1]` instead of the loop index, so the MultiPoint
`[(20,20),(5,5)]` — whose first point lies outside the square — is
nevertheless reported as within it, although `inside` rejects `(20,20)`. -/
theorem isMultiPointInPoly_fixed_index_bug :
    booleanWithin (.multiPoint [(20,20), (5,5)]) (.polygon exampleSquare) = .ok true ∧
    inside ((20:ℚ),(20:ℚ)) exampleSquare false = false := by
  constructor
  · with_unfolding_all rfl
  · with_unfolding_all decide
